import Mathlib

/-!
Verification of the explosion-simulator core (shape decomposition, seeded RNG,
explosion kinematics with global momentum correction, gas integrator, and the
time-scale utilities) against its natural-language specification.

The JavaScript source is shallowly embedded over exact rationals: JS doubles
are modelled as `ℚ` (with a separate `JSNum` type adding the NaN value where a
claim is about NaN handling), the transcendental `Math` functions and
`THREE.Color.setHSL` — deterministic functions of their double arguments — are
modelled as unknown-but-fixed parameters collected in a `MathModel`, and the
per-call `Math.random()` source is modelled as an indexed stream.
-/

namespace SpaceExplosions

/-- A 3-component vector over exact rationals, modelling `THREE.Vector3`
(and rgb triples from `THREE.Color`). -/
@[ext]
structure Vec3 where
  x : ℚ
  y : ℚ
  z : ℚ
deriving DecidableEq, Repr

def vzero : Vec3 := ⟨0, 0, 0⟩

/-- The `THREE.Vector3.add`. -/
def vadd (a b : Vec3) : Vec3 := ⟨a.x + b.x, a.y + b.y, a.z + b.z⟩

/-- The `THREE.Vector3.sub`. -/
def vsub (a b : Vec3) : Vec3 := ⟨a.x - b.x, a.y - b.y, a.z - b.z⟩

/-- The `THREE.Vector3.multiplyScalar`. -/
def vsmul (k : ℚ) (a : Vec3) : Vec3 := ⟨k * a.x, k * a.y, k * a.z⟩

/-- Sum of a list of vectors (the `forEach`/`add` accumulation pattern). -/
def vsum (l : List Vec3) : Vec3 := l.foldr vadd vzero

/-- Model of the ambient deterministic math library: `Math.cos`, `Math.sin`,
`Math.acos`, `Math.log`, `Math.sqrt`, the constant `Math.PI`, and
`THREE.Color.prototype.setHSL` (returning an rgb triple).  On any fixed
platform each of these is a fixed function of its double arguments, so an
unknown-but-fixed family of rational functions is a faithful model for the
claims below (none of which depends on particular transcendental values). -/
structure MathModel where
  cos : ℚ → ℚ
  sin : ℚ → ℚ
  acos : ℚ → ℚ
  log : ℚ → ℚ
  sqrt : ℚ → ℚ
  pi : ℚ
  hsl : ℚ → ℚ → ℚ → Vec3

/-- A trivial concrete instantiation of `MathModel`, used only to evaluate
witnesses on concrete inputs. -/
def mathModelZero : MathModel :=
  { cos := fun _ => 0, sin := fun _ => 0, acos := fun _ => 0,
    log := fun _ => 0, sqrt := fun _ => 0, pi := 0,
    hsl := fun _ _ _ => vzero }

/-! ## SeededRandom (src/unnamed/part_000 lines 114-127)

```js
class SeededRandom {
  constructor(seed) { this.seed = seed; }
  next() {
    this.seed = (this.seed * 1664525 + 1013904223) % 4294967296;
    return this.seed / 4294967296;
  }
  reset(seed) { this.seed = seed; }
}
```

JS numbers are doubles, but for `seed < 2^32` every intermediate of the update
stays below `2^53` (proved in the C3 theorem), so the double arithmetic is
exact integer arithmetic and the `ℕ` embedding below is bit-faithful. -/

/-- The pre-modulus value `seed * 1664525 + 1013904223` of the LCG update. -/
def lcgPreMod (seed : ℕ) : ℕ := seed * 1664525 + 1013904223

/-- The LCG seed update `(seed * 1664525 + 1013904223) % 4294967296`. -/
def lcgNext (seed : ℕ) : ℕ := lcgPreMod seed % 4294967296

/-- One call of `SeededRandom.next()` as a state transformer: returns the
fresh uniform `seed / 4294967296` together with the updated seed. -/
def seededRandomNext (seed : ℕ) : ℚ × ℕ :=
  ((lcgNext seed : ℚ) / 4294967296, lcgNext seed)

/-- The `SeededRandom` object: its whole state is the current seed. -/
structure SeededRandom where
  seed : ℕ
deriving DecidableEq, Repr

/-- The `rng.next()` on the object form. -/
def SeededRandom.next (r : SeededRandom) : ℚ × SeededRandom :=
  ((seededRandomNext r.seed).1, ⟨(seededRandomNext r.seed).2⟩)

/-- The `rng.reset(seed)`. -/
def SeededRandom.reset (_ : SeededRandom) (seed : ℕ) : SeededRandom := ⟨seed⟩

/-- The output stream of a `SeededRandom` object: `stream r n` is the value
returned by the `(n+1)`-th call to `next()`. -/
def SeededRandom.stream (r : SeededRandom) : ℕ → ℚ
  | 0 => r.next.1
  | n + 1 => SeededRandom.stream r.next.2 n

/-! ## Time utilities (src/simulation-utils.js)

Modelled over `JSNum`: a JS double that is either NaN or a (finite) number.
The infinities never arise from the operations used on the inputs the claims
discuss, and are outside the model. -/

/-- A JS number: NaN or a finite value (modelled exactly as a rational). -/
inductive JSNum where
  | nan : JSNum
  | num : ℚ → JSNum
deriving DecidableEq, Repr

/-- The `Number.isNaN`. -/
def JSNum.isNaN : JSNum → Bool
  | .nan => true
  | .num _ => false

/-- The `Math.max(0, x)`: NaN-absorbing, as in JS (`Math.max` returns NaN when any
argument is NaN). -/
def jsMax0 : JSNum → JSNum
  | .nan => .nan
  | .num q => .num (max 0 q)

/-- JS multiplication on the modelled domain: NaN-absorbing, exact otherwise. -/
def jsMul : JSNum → JSNum → JSNum
  | .nan, _ => .nan
  | .num _, .nan => .nan
  | .num a, .num b => .num (a * b)

/-- The `clampTimeScale` (src/simulation-utils.js lines 1-6):
returns 0 on NaN, otherwise `Math.max(0, timeScale)`. -/
def clampTimeScale (timeScale : JSNum) : JSNum :=
  if timeScale.isNaN then .num 0 else jsMax0 timeScale

/-- The `computeSimulationDelta` (src/simulation-utils.js lines 8-16):
0 when not playing, otherwise `Math.max(0, rawDelta) * clampTimeScale(timeScale)`. -/
def computeSimulationDelta (rawDelta timeScale : JSNum) (isPlaying : Bool) : JSNum :=
  if !isPlaying then .num 0
  else jsMul (jsMax0 rawDelta) (clampTimeScale timeScale)

/-- The `resolveTimeStep` (src/simulation-utils.js lines 18-24):
the simulation delta when playing, else `Math.max(0, rawDelta)`. -/
def resolveTimeStep (isPlaying : Bool) (simulationDelta rawDelta : JSNum) : JSNum :=
  if isPlaying then simulationDelta else jsMax0 rawDelta

/-- Modelled from the spec: `clamp_time_scale(x)` "returns 0 for NaN input,
otherwise `max(0, x)`" (spec section 6). -/
def specClampTimeScale : JSNum → ℚ
  | .nan => 0
  | .num q => max 0 q

/-- Modelled from the spec: `compute_simulation_delta(raw_delta, time_scale,
is_playing)` "returns 0 if not playing, else `max(0,raw_delta) *
clamp_time_scale(time_scale)`" (spec section 6), stated on numeric raw deltas. -/
def specComputeSimulationDelta (rawDelta : ℚ) (timeScale : JSNum) (isPlaying : Bool) : ℚ :=
  if isPlaying then max 0 rawDelta * specClampTimeScale timeScale else 0

/-- Modelled from the spec: `resolve_time_step(is_playing, simulation_delta,
raw_delta)` "returns `simulation_delta` if playing else `max(0, raw_delta)`"
(spec section 6), stated on numeric arguments. -/
def specResolveTimeStep (isPlaying : Bool) (simulationDelta rawDelta : ℚ) : ℚ :=
  if isPlaying then simulationDelta else max 0 rawDelta

/-! ## Shape decomposition (src/unnamed/part_000 lines 149-582, `createShapeChunks`)

Each chunk record keeps what the explosion kinematics consume: its initial
position (the mesh position / centroid) and its mass, computed in the source
as `bounding_box_volume × density(=1.0)` from `THREE.Box3().setFromObject`.
For every non-cube piece the geometry is translated by `-centroid` and the
mesh is positioned at `+centroid`, so the world bounding box is the
axis-aligned bounding box of the vertex coordinates as originally computed. -/

/-- One fragment: initial position and mass (the `velocity` field of the
source record is zero until the explosion assigns it, and is returned
separately by the explosion pipeline below). -/
structure Chunk where
  initialPos : Vec3
  mass : ℚ
deriving DecidableEq, Repr

/-- Maximum of a list of rationals (fold as `THREE.Box3` does over vertices). -/
def listMax : List ℚ → ℚ
  | [] => 0
  | q :: qs => qs.foldl max q

/-- Minimum of a list of rationals. -/
def listMin : List ℚ → ℚ
  | [] => 0
  | q :: qs => qs.foldl min q

/-- Axis-aligned bounding-box volume of a vertex list:
`size.x * size.y * size.z` after `bbox.getSize(size)`. -/
def bboxVolume (vs : List Vec3) : ℚ :=
  (listMax (vs.map Vec3.x) - listMin (vs.map Vec3.x)) *
    (listMax (vs.map Vec3.y) - listMin (vs.map Vec3.y)) *
    (listMax (vs.map Vec3.z) - listMin (vs.map Vec3.z))

/-- Cube case (lines 154-195): 6×6×6 sub-cubes of a size-8 cube, each a
`BoxGeometry` of side `pieceSize * 0.98`; mass is the box volume. -/
def cubeChunks : List Chunk :=
  (List.range 6).bind fun x =>
    (List.range 6).bind fun y =>
      (List.range 6).map fun (z : ℕ) =>
        let pieceSize : ℚ := 8 / 6
        let offset : ℚ := -(8 : ℚ) / 2 + pieceSize / 2
        let posX : ℚ := offset + (x : ℚ) * pieceSize
        let posY : ℚ := offset + (y : ℚ) * pieceSize
        let posZ : ℚ := offset + (z : ℚ) * pieceSize
        let side : ℚ := pieceSize * (98 / 100)
        let density : ℚ := 1
        { initialPos := ⟨posX, posY, posZ⟩, mass := side * side * side * density }

/-- A spherical-coordinate vertex `(r sinφ cosθ, r cosφ, r sinφ sinθ)` as
pushed in the sphere case. -/
def sphereVertex (M : MathModel) (r phi theta : ℚ) : Vec3 :=
  ⟨r * M.sin phi * M.cos theta, r * M.cos phi, r * M.sin phi * M.sin theta⟩

/-- Sphere case (lines 197-291): 6 latitude × 12 longitude wedges of radius 5,
outer shell at `0.98 r`, inner shell at `0.5 r`, centroid at `0.65 r1`. -/
def sphereChunks (M : MathModel) : List Chunk :=
  (List.range 6).bind fun lat =>
    (List.range 12).map fun (lon : ℕ) =>
      let radius : ℚ := 5
      let phi1 := ((lat : ℚ) / 6) * M.pi
      let phi2 := (((lat : ℚ) + 1) / 6) * M.pi
      let theta1 := ((lon : ℚ) / 12) * M.pi * 2
      let theta2 := (((lon : ℚ) + 1) / 12) * M.pi * 2
      let centerPhi := (phi1 + phi2) / 2
      let centerTheta := (theta1 + theta2) / 2
      let r1 := radius * (98 / 100)
      let r2 := radius * (1 / 2)
      let verts : List Vec3 :=
        [sphereVertex M r1 phi1 theta1, sphereVertex M r1 phi1 theta2,
          sphereVertex M r1 phi2 theta1, sphereVertex M r1 phi2 theta2,
          sphereVertex M r2 phi1 theta1, sphereVertex M r2 phi1 theta2,
          sphereVertex M r2 phi2 theta1, sphereVertex M r2 phi2 theta2]
      let centroid : Vec3 :=
        ⟨r1 * (65 / 100) * M.sin centerPhi * M.cos centerTheta,
          r1 * (65 / 100) * M.cos centerPhi,
          r1 * (65 / 100) * M.sin centerPhi * M.sin centerTheta⟩
      let density : ℚ := 1
      { initialPos := centroid, mass := bboxVolume verts * density }

/-- Cone case (lines 293-385): 10 layers × 6 segments of a cone of height 10
and base radius 5, with an inner wall at `0.8` of the layer radius and the
centroid placed at `0.9` of the mean radius. -/
def coneChunks (M : MathModel) : List Chunk :=
  (List.range 10).bind fun layer =>
    (List.range 6).map fun (seg : ℕ) =>
      let height : ℚ := 10
      let baseRadius : ℚ := 5
      let y1 := -height / 2 + ((layer : ℚ) / 10) * height
      let y2 := -height / 2 + (((layer : ℚ) + 1) / 10) * height
      let r1 := baseRadius * (1 - (layer : ℚ) / 10)
      let r2 := baseRadius * (1 - ((layer : ℚ) + 1) / 10)
      let theta1 := ((seg : ℚ) / 6) * M.pi * 2
      let theta2 := (((seg : ℚ) + 1) / 6) * M.pi * 2
      let innerScale : ℚ := 8 / 10
      let verts : List Vec3 :=
        [⟨r1 * M.cos theta1, y1, r1 * M.sin theta1⟩,
          ⟨r1 * M.cos theta2, y1, r1 * M.sin theta2⟩,
          ⟨r2 * M.cos theta1, y2, r2 * M.sin theta1⟩,
          ⟨r2 * M.cos theta2, y2, r2 * M.sin theta2⟩,
          ⟨r1 * innerScale * M.cos theta1, y1, r1 * innerScale * M.sin theta1⟩,
          ⟨r1 * innerScale * M.cos theta2, y1, r1 * innerScale * M.sin theta2⟩,
          ⟨r2 * innerScale * M.cos theta1, y2, r2 * innerScale * M.sin theta1⟩,
          ⟨r2 * innerScale * M.cos theta2, y2, r2 * innerScale * M.sin theta2⟩]
      let centerTheta := (theta1 + theta2) / 2
      let centerR := (r1 + r2) / 2
      let centerY := (y1 + y2) / 2
      let pos : Vec3 :=
        ⟨centerR * (9 / 10) * M.cos centerTheta, centerY,
          centerR * (9 / 10) * M.sin centerTheta⟩
      let density : ℚ := 1
      { initialPos := pos, mass := bboxVolume verts * density }

/-- Cylinder case (lines 387-485): 10 layers × 8 segments of a cylinder of
height 10 and radius 4, outer wall at `0.98 r`, inner wall at `0.6 r`. -/
def cylinderChunks (M : MathModel) : List Chunk :=
  (List.range 10).bind fun layer =>
    (List.range 8).map fun (seg : ℕ) =>
      let height : ℚ := 10
      let radius : ℚ := 4
      let y1 := -height / 2 + ((layer : ℚ) / 10) * height
      let y2 := -height / 2 + (((layer : ℚ) + 1) / 10) * height
      let theta1 := ((seg : ℚ) / 8) * M.pi * 2
      let theta2 := (((seg : ℚ) + 1) / 8) * M.pi * 2
      let outerR := radius * (98 / 100)
      let innerR := radius * (6 / 10)
      let verts : List Vec3 :=
        [⟨outerR * M.cos theta1, y1, outerR * M.sin theta1⟩,
          ⟨outerR * M.cos theta2, y1, outerR * M.sin theta2⟩,
          ⟨outerR * M.cos theta1, y2, outerR * M.sin theta1⟩,
          ⟨outerR * M.cos theta2, y2, outerR * M.sin theta2⟩,
          ⟨innerR * M.cos theta1, y1, innerR * M.sin theta1⟩,
          ⟨innerR * M.cos theta2, y1, innerR * M.sin theta2⟩,
          ⟨innerR * M.cos theta1, y2, innerR * M.sin theta1⟩,
          ⟨innerR * M.cos theta2, y2, innerR * M.sin theta2⟩]
      let centerTheta := (theta1 + theta2) / 2
      let centerR := (outerR + innerR) / 2
      let centerY := (y1 + y2) / 2
      let pos : Vec3 := ⟨centerR * M.cos centerTheta, centerY, centerR * M.sin centerTheta⟩
      let density : ℚ := 1
      { initialPos := pos, mass := bboxVolume verts * density }

/-- An outer torus vertex
`((R + r cos v) cos u, r sin v, (R + r cos v) sin u)` as pushed in the ring
case. -/
def torusVertex (M : MathModel) (majorRadius minorR majA minA : ℚ) : Vec3 :=
  ⟨(majorRadius + minorR * M.cos minA) * M.cos majA,
    minorR * M.sin minA,
    (majorRadius + minorR * M.cos minA) * M.sin majA⟩

/-- Ring (torus) case (lines 487-578): 16 major × 6 minor segments, major
radius 5, minor radius 1.5, inner wall at `0.6` of the minor radius, centroid
at `0.8` of the minor radius.  Each of the four corner angle pairs pushes an
outer vertex then an inner vertex. -/
def ringChunks (M : MathModel) : List Chunk :=
  (List.range 16).bind fun maj =>
    (List.range 6).map fun (mi : ℕ) =>
      let majorRadius : ℚ := 5
      let minorRadius : ℚ := 3 / 2
      let majorAngle1 := ((maj : ℚ) / 16) * M.pi * 2
      let majorAngle2 := (((maj : ℚ) + 1) / 16) * M.pi * 2
      let minorAngle1 := ((mi : ℚ) / 6) * M.pi * 2
      let minorAngle2 := (((mi : ℚ) + 1) / 6) * M.pi * 2
      let innerMinR := minorRadius * (6 / 10)
      let verts : List Vec3 :=
        [torusVertex M majorRadius minorRadius majorAngle1 minorAngle1,
          torusVertex M majorRadius innerMinR majorAngle1 minorAngle1,
          torusVertex M majorRadius minorRadius majorAngle1 minorAngle2,
          torusVertex M majorRadius innerMinR majorAngle1 minorAngle2,
          torusVertex M majorRadius minorRadius majorAngle2 minorAngle1,
          torusVertex M majorRadius innerMinR majorAngle2 minorAngle1,
          torusVertex M majorRadius minorRadius majorAngle2 minorAngle2,
          torusVertex M majorRadius innerMinR majorAngle2 minorAngle2]
      let centerMajorAngle := (majorAngle1 + majorAngle2) / 2
      let centerMinorAngle := (minorAngle1 + minorAngle2) / 2
      let center : Vec3 :=
        ⟨(majorRadius + minorRadius * (8 / 10) * M.cos centerMinorAngle) * M.cos centerMajorAngle,
          minorRadius * (8 / 10) * M.sin centerMinorAngle,
          (majorRadius + minorRadius * (8 / 10) * M.cos centerMinorAngle) * M.sin centerMajorAngle⟩
      let density : ℚ := 1
      { initialPos := center, mass := bboxVolume verts * density }

/-- The `createShapeChunks(shapeType)` (lines 149-582): a `switch` over the five
supported shape strings.  An unknown shape matches no case, so the local
`chunks` array is returned still empty — there is no default branch and no
error is signalled. -/
def createShapeChunks (M : MathModel) (shapeType : String) : List Chunk :=
  if shapeType = "cube" then cubeChunks
  else if shapeType = "sphere" then sphereChunks M
  else if shapeType = "cone" then coneChunks M
  else if shapeType = "cylinder" then cylinderChunks M
  else if shapeType = "ring" then ringChunks M
  else []

/-! ## Explosion kinematics (src/unnamed/part_000: `maxwellBoltzmannSpeed`
lines 131-146, `explodeObject` lines 694-883)

The random source is abstracted as a state transformer `next : σ → ℚ × σ`.
In seeded mode every draw site evaluates `rng.next()` (state `σ = ℕ`, the
current seed); in unseeded mode every draw site evaluates `Math.random()`,
modelled as an indexed stream consumed in call order. -/

/-- The `PHYS_SCALE = 14.43` (line 5). -/
def PHYS_SCALE : ℚ := 1443 / 100

/-- The `gasParticleMass = 0.001` (line 816). -/
def gasParticleMass : ℚ := 1 / 1000

/-- The configuration state an explosion trigger reads: seed mode and seed,
blast temperature (`explosionSpeed`), gas toggle, reference frame, and the
lab-frame bulk velocity `comVel`. -/
structure ExplosionConfig where
  useRandomSeed : Bool
  randomSeed : ℕ
  explosionSpeed : ℚ
  enableGas : Bool
  frameIsCoM : Bool
  comVel : Vec3
deriving DecidableEq, Repr

/-- The `gasCount`: `10000` when gas is enabled, `0` otherwise (lines 747-750). -/
def gasCountOf (cfg : ExplosionConfig) : ℕ := if cfg.enableGas then 10000 else 0

/-- The `totalSystemMass = totalMass + gasCount * gasParticleMass` (line 822),
where `totalMass` is the chunk mass sum (line 720).  The momentum correction
(line 832) divides by this quantity. -/
def totalSystemMass (chunks : List Chunk) (gasCount : ℕ) : ℚ :=
  (chunks.map Chunk.mass).sum + (gasCount : ℚ) * gasParticleMass

/-- Run a state-threading generator `n` times, collecting the produced values
(the `for` loops that push one record per iteration while consuming the
shared random source). -/
def genList {σ α : Type} (n : ℕ) (f : σ → α × σ) (s : σ) : List α × σ :=
  match n with
  | 0 => ([], s)
  | Nat.succ m =>
      let r := f s
      let rest := genList m f r.2
      (r.1 :: rest.1, rest.2)

/-- The `maxwellBoltzmannSpeed(temperature)` (lines 132-146): four uniforms,
Box-Muller, `speed = sqrt(z0² + z1² + z2²) * temperature`. -/
def maxwellBoltzmannSpeed {σ : Type} (M : MathModel) (next : σ → ℚ × σ)
    (temperature : ℚ) (s : σ) : ℚ × σ :=
  let r1 := next s
  let u1 := r1.1
  let r2 := next r1.2
  let u2 := r2.1
  let z0 := M.sqrt (-2 * M.log u1) * M.cos (2 * M.pi * u2)
  let z1 := M.sqrt (-2 * M.log u1) * M.sin (2 * M.pi * u2)
  let r3 := next r2.2
  let u3 := r3.1
  let r4 := next r3.2
  let u4 := r4.1
  let z2 := M.sqrt (-2 * M.log u3) * M.cos (2 * M.pi * u4)
  let speed := M.sqrt (z0 * z0 + z1 * z1 + z2 * z2) * temperature
  (speed, r4.2)

/-- One chunk velocity draw (lines 728-736): speed, then
`theta = u * 2π`, `phi = acos(2u − 1)`, and the spherical direction vector. -/
def genChunkVelocity {σ : Type} (M : MathModel) (next : σ → ℚ × σ)
    (temperature : ℚ) (s : σ) : Vec3 × σ :=
  let rs := maxwellBoltzmannSpeed M next temperature s
  let speed := rs.1
  let rt := next rs.2
  let theta := rt.1 * M.pi * 2
  let rp := next rt.2
  let phi := M.acos (2 * rp.1 - 1)
  (⟨speed * M.sin phi * M.cos theta,
    speed * M.sin phi * M.sin theta,
    speed * M.cos phi⟩, rp.2)

/-- The `Math.floor(u * explosionChunks.length)` (line 756), the gas spawn-chunk
index. -/
def gasSpawnIdx (u : ℚ) (len : ℕ) : ℤ := ⌊u * (len : ℚ)⌋

/-- Per-channel clamp `Math.min(1, Math.max(0, c))` (lines 784-786). -/
def clamp01 (q : ℚ) : ℚ := min 1 (max 0 q)

/-- The `THREE.Color.lerp` toward `b` by factor `t`: each channel moves by
`(b − a) * t`. -/
def vlerp (a b : Vec3) (t : ℚ) : Vec3 :=
  ⟨a.x + (b.x - a.x) * t, a.y + (b.y - a.y) * t, a.z + (b.z - a.z) * t⟩

/-- Placeholder for the JS `undefined` produced by an out-of-bounds chunk
lookup; never reached for a non-empty chunk list (claim C10). -/
def defaultChunk : Chunk := ⟨vzero, 0⟩

/-- One gas particle (lines 754-799): spawn-chunk index, ±0.25 jitter per
axis, the hand-tuned hot color (three HSL bands by `temp` thresholds 0.3/0.6,
lerped 25% toward white, scaled 1.15 and clamped per channel), then a speed
at the doubled gas temperature and a direction.  Returns
`(position, color, velocity)`. -/
def genGasParticle {σ : Type} (M : MathModel) (next : σ → ℚ × σ)
    (chunks : List Chunk) (gasTemperature : ℚ) (s : σ) :
    (Vec3 × Vec3 × Vec3) × σ :=
  let r0 := next s
  let randomChunkIdx := gasSpawnIdx r0.1 chunks.length
  let chunkPos := (chunks.getD randomChunkIdx.toNat defaultChunk).initialPos
  let jitterScale : ℚ := 1 / 2
  let rj1 := next r0.2
  let jitterX := (rj1.1 - 1 / 2) * jitterScale
  let rj2 := next rj1.2
  let jitterY := (rj2.1 - 1 / 2) * jitterScale
  let rj3 := next rj2.2
  let jitterZ := (rj3.1 - 1 / 2) * jitterScale
  let pos : Vec3 := ⟨chunkPos.x + jitterX, chunkPos.y + jitterY, chunkPos.z + jitterZ⟩
  let rt := next rj3.2
  let temp := rt.1
  let rb := next rt.2
  let brightnessRoll := rb.1
  let base : Vec3 :=
    if temp < 3 / 10 then M.hsl (8 / 100) 1 (88 / 100 + brightnessRoll * (12 / 100))
    else if temp < 6 / 10 then M.hsl (12 / 100) 1 (9 / 10 + brightnessRoll * (1 / 10))
    else M.hsl (2 / 100) (3 / 10) (98 / 100 + brightnessRoll * (2 / 100))
  let whiteHotColor : Vec3 := ⟨1, 1, 1⟩
  let lerped := vlerp base whiteHotColor (25 / 100)
  let scaled := vsmul (115 / 100) lerped
  let color : Vec3 := ⟨clamp01 scaled.x, clamp01 scaled.y, clamp01 scaled.z⟩
  let rsp := maxwellBoltzmannSpeed M next gasTemperature rb.2
  let speed := rsp.1
  let rth := next rsp.2
  let theta := rth.1 * M.pi * 2
  let rph := next rth.2
  let phi := M.acos (2 * rph.1 - 1)
  let vel : Vec3 :=
    ⟨speed * M.sin phi * M.cos theta,
      speed * M.sin phi * M.sin theta,
      speed * M.cos phi⟩
  ((pos, color, vel), rph.2)

/-- What one explosion trigger produces: the corrected chunk velocities (one
per chunk, in order) and the gas position/color/velocity arrays. -/
structure ExplosionOutputs where
  chunkVelocities : List Vec3
  gasPositions : List Vec3
  gasColors : List Vec3
  gasVelocities : List Vec3
deriving DecidableEq, Repr

/-- The draw-and-correct pipeline of `explodeObject` (lines 719-880) over an
abstract uniform source: chunk velocity draws scaled by `PHYS_SCALE`
(lines 739-741), gas generation (lines 749-804), total momentum (lines
806-819), `totalSystemMass` (line 822), the frame-dependent target momentum
(lines 827-829), the global correction
`(target − total) / totalSystemMass` (line 832, `divideScalar` multiplying by
the reciprocal), applied additively to every chunk and gas velocity
(lines 835-837 and 869-873). -/
def explodeCore {σ : Type} (M : MathModel) (next : σ → ℚ × σ)
    (chunks : List Chunk) (cfg : ExplosionConfig) (s : σ) :
    ExplosionOutputs × σ :=
  let temperature := cfg.explosionSpeed
  let rc := genList chunks.length (genChunkVelocity M next temperature) s
  let chunkVelocities := rc.1.map (vsmul PHYS_SCALE)
  let gasCount := gasCountOf cfg
  let gasTemperature := temperature * 2
  let rg := genList gasCount (genGasParticle M next chunks gasTemperature) rc.2
  let gasPositions := rg.1.map fun p => p.1
  let gasColors := rg.1.map fun p => p.2.1
  let gasVelocities := (rg.1.map fun p => p.2.2).map (vsmul PHYS_SCALE)
  let totalMomentum :=
    vadd (vsum ((chunks.zip chunkVelocities).map fun p => vsmul p.1.mass p.2))
      (vsum (gasVelocities.map (vsmul gasParticleMass)))
  let tsm := totalSystemMass chunks gasCount
  let targetMomentum := if cfg.frameIsCoM then vzero else vsmul tsm cfg.comVel
  let momentumCorrection := vsmul (1 / tsm) (vsub targetMomentum totalMomentum)
  ({ chunkVelocities := chunkVelocities.map fun v => vadd v momentumCorrection,
     gasPositions := gasPositions,
     gasColors := gasColors,
     gasVelocities := gasVelocities.map fun v => vadd v momentumCorrection }, rg.2)

/-- The outputs of one `explodeObject` trigger.  Per lines 698-701 the RNG is
first reset to the configured seed in seeded mode and every subsequent
uniform is drawn from that single RNG (`useRandomSeed ? rng.next() :
Math.random()` at every draw site, with `useRandomSeed` fixed for the whole
trigger); in unseeded mode every draw is `Math.random()`, modelled as the
stream `sysRand` consumed from index `sysIdx` in call order. -/
def explodeOutputs (M : MathModel) (chunks : List Chunk) (cfg : ExplosionConfig)
    (sysRand : ℕ → ℚ) (rngSeed sysIdx : ℕ) : ExplosionOutputs :=
  if cfg.useRandomSeed then
    (explodeCore M seededRandomNext chunks cfg cfg.randomSeed).1
  else
    (explodeCore M (fun i => (sysRand i, i + 1)) chunks cfg sysIdx).1

/-- The `explodeObject` with its only guard (line 696): triggering with no
current object or while already exploded is a no-op (`none`); in every other
case the full pipeline — including the division by `totalSystemMass` — runs. -/
def explodeObject (M : MathModel) (chunks : List Chunk) (cfg : ExplosionConfig)
    (sysRand : ℕ → ℚ) (hasCurrentObject isExploded : Bool) (rngSeed sysIdx : ℕ) :
    Option ExplosionOutputs :=
  if !hasCurrentObject || isExploded then none
  else some (explodeOutputs M chunks cfg sysRand rngSeed sysIdx)

/-! ## Gas integrator (src/unnamed/part_000, `animate` lines 1071-1095) -/

/-- The live gas buffer: particle positions and velocities, the shared age,
and `maxAge` (2.5 at creation, line 877). -/
structure GasState where
  positions : List Vec3
  velocities : List Vec3
  age : ℚ
  maxAge : ℚ
deriving DecidableEq, Repr

/-- The material opacity written each frame:
`Math.max(0, 1.0 * (1 − progress))` (line 1086). -/
def gasOpacity (age maxAge : ℚ) : ℚ := max 0 (1 * (1 - age / maxAge))

/-- The material point size written each frame:
`0.45 * (1 + progress * 2)` (line 1087). -/
def gasSize (age maxAge : ℚ) : ℚ := 45 / 100 * (1 + age / maxAge * 2)

/-- One integrator step on a live gas buffer (lines 1071-1095):
`age += simulationDelta`; every position advances by
`velocity * simulationDelta * 10`; then, with `progress = age / maxAge`,
opacity and size are derived, and when `progress ≥ 1` the buffer is disposed
and removed from the scene (`none`). -/
def gasUpdate (g : GasState) (simulationDelta : ℚ) : Option GasState :=
  let age := g.age + simulationDelta
  let positions :=
    (g.positions.zip g.velocities).map fun p =>
      ⟨p.1.x + p.2.x * simulationDelta * 10,
        p.1.y + p.2.y * simulationDelta * 10,
        p.1.z + p.2.z * simulationDelta * 10⟩
  let gasProgress := age / g.maxAge
  if gasProgress ≥ 1 then none
  else some { positions := positions, velocities := g.velocities, age := age, maxAge := g.maxAge }

/-- A fresh gas buffer as created at explosion time:
`age = 0`, `maxAge = 2.5` (lines 876-877). -/
def freshGas (positions velocities : List Vec3) : GasState :=
  { positions := positions, velocities := velocities, age := 0, maxAge := 5 / 2 }

/-- Iterate the integrator over a list of per-frame simulation deltas; once
the buffer is destroyed it stays removed from the active set. -/
def gasRun (g : GasState) (deltas : List ℚ) : Option GasState :=
  deltas.foldl (fun o d => o.bind fun g => gasUpdate g d) (some g)

/-! ## Helper lemmas -/

theorem vsum_cons (a : Vec3) (l : List Vec3) : vsum (a :: l) = vadd a (vsum l) := rfl

theorem length_bind_const {α β : Type} (l : List α) (f : α → List β) (k : ℕ)
    (h : ∀ a ∈ l, (f a).length = k) : (l.bind f).length = l.length * k := by
  induction l with
  | nil => simp
  | cons a l ih =>
      have ha := h a (List.mem_cons_self a l)
      have ih' := ih fun b hb => h b (List.mem_cons_of_mem a hb)
      simp [List.cons_bind, ha, ih']
      ring

theorem length_range_bind_map {β : Type} (n m : ℕ) (f : ℕ → ℕ → β) :
    ((List.range n).bind fun a => (List.range m).map (f a)).length = n * m :=
  (length_bind_const _ _ m fun _ _ => by simp).trans (by simp)

theorem length_range_bind_bind_map {β : Type} (n m k : ℕ) (f : ℕ → ℕ → ℕ → β) :
    ((List.range n).bind fun a =>
      (List.range m).bind fun b => (List.range k).map (f a b)).length = n * (m * k) :=
  (length_bind_const _ _ (m * k) fun a _ => length_range_bind_map m k (f a)).trans
    (by simp)

theorem cubeChunks_length : cubeChunks.length = 216 := by
  unfold cubeChunks
  exact (length_range_bind_bind_map 6 6 6 _).trans (by norm_num)

theorem sphereChunks_length (M : MathModel) : (sphereChunks M).length = 72 := by
  unfold sphereChunks
  exact (length_range_bind_map 6 12 _).trans (by norm_num)

theorem coneChunks_length (M : MathModel) : (coneChunks M).length = 60 := by
  unfold coneChunks
  exact (length_range_bind_map 10 6 _).trans (by norm_num)

theorem cylinderChunks_length (M : MathModel) : (cylinderChunks M).length = 80 := by
  unfold cylinderChunks
  exact (length_range_bind_map 10 8 _).trans (by norm_num)

theorem ringChunks_length (M : MathModel) : (ringChunks M).length = 96 := by
  unfold ringChunks
  exact (length_range_bind_map 16 6 _).trans (by norm_num)

theorem genList_length {σ α : Type} (n : ℕ) (f : σ → α × σ) (s : σ) :
    (genList n f s).1.length = n := by
  induction n generalizing s with
  | zero => rfl
  | succ m ih => simp [genList, ih]

theorem vsum_map_smul_vadd (l : List (Chunk × Vec3)) (c : Vec3) :
    vsum (l.map fun p => vsmul p.1.mass (vadd p.2 c)) =
      vadd (vsum (l.map fun p => vsmul p.1.mass p.2))
        (vsmul ((l.map fun p => p.1.mass).sum) c) := by
  induction l with
  | nil => ext <;> simp [vsum, vadd, vsmul, vzero]
  | cons a l ih =>
      rw [List.map_cons, List.map_cons, List.map_cons, vsum_cons, vsum_cons, ih,
        List.sum_cons]
      ext <;> simp [vadd, vsmul] <;> ring

theorem vsum_map_gas_vadd (l : List Vec3) (c : Vec3) :
    vsum ((l.map fun v => vadd v c).map (vsmul gasParticleMass)) =
      vadd (vsum (l.map (vsmul gasParticleMass)))
        (vsmul ((l.length : ℚ) * gasParticleMass) c) := by
  induction l with
  | nil => ext <;> simp [vsum, vadd, vsmul, vzero]
  | cons a l ih =>
      rw [List.map_cons, List.map_cons, List.map_cons, vsum_cons, vsum_cons, ih,
        List.length_cons]
      ext <;> simp [vadd, vsmul] <;> ring

theorem correction_recovers_target (P T : Vec3) (m : ℚ) (hm : m ≠ 0) :
    vadd P (vsmul m (vsmul (1 / m) (vsub T P))) = T := by
  ext <;> simp [vadd, vsmul, vsub] <;> field_simp

theorem corrected_total (chunks : List Chunk) (cvs gvs : List Vec3) (P T c : Vec3)
    (m : ℚ) (hlen : chunks.length ≤ cvs.length)
    (hP : P = vadd (vsum ((chunks.zip cvs).map fun p => vsmul p.1.mass p.2))
      (vsum (gvs.map (vsmul gasParticleMass))))
    (hm : m = (chunks.map Chunk.mass).sum + (gvs.length : ℚ) * gasParticleMass)
    (hc : c = vsmul (1 / m) (vsub T P)) (hm0 : m ≠ 0) :
    vadd (vsum ((chunks.zip (cvs.map fun v => vadd v c)).map fun p => vsmul p.1.mass p.2))
      (vsum ((gvs.map fun v => vadd v c).map (vsmul gasParticleMass))) = T := by
  have hz : (chunks.zip (cvs.map fun v => vadd v c)).map (fun p => vsmul p.1.mass p.2)
      = (chunks.zip cvs).map fun p => vsmul p.1.mass (vadd p.2 c) := by
    rw [List.zip_map_right, List.map_map]
    rfl
  have hmass : ((chunks.zip cvs).map fun p => p.1.mass).sum = (chunks.map Chunk.mass).sum := by
    have h1 : ((chunks.zip cvs).map fun p => p.1.mass)
        = ((chunks.zip cvs).map Prod.fst).map Chunk.mass := by
      rw [List.map_map]
      rfl
    rw [h1, List.map_fst_zip chunks cvs hlen]
  rw [hz, vsum_map_smul_vadd, vsum_map_gas_vadd, hmass]
  have hcomb :
      vadd (vadd (vsum ((chunks.zip cvs).map fun p => vsmul p.1.mass p.2))
          (vsmul ((chunks.map Chunk.mass).sum) c))
        (vadd (vsum (gvs.map (vsmul gasParticleMass)))
          (vsmul ((gvs.length : ℚ) * gasParticleMass) c))
      = vadd P (vsmul m c) := by
    rw [hP, hm]
    ext <;> simp [vadd, vsmul] <;> ring
  rw [hcomb, hc]
  exact correction_recovers_target P T m hm0

theorem explodeCore_momentum {σ : Type} (M : MathModel) (next : σ → ℚ × σ)
    (chunks : List Chunk) (cfg : ExplosionConfig) (s : σ)
    (hm : totalSystemMass chunks (gasCountOf cfg) ≠ 0) :
    vadd
      (vsum ((chunks.zip (explodeCore M next chunks cfg s).1.chunkVelocities).map
        fun p => vsmul p.1.mass p.2))
      (vsum ((explodeCore M next chunks cfg s).1.gasVelocities.map
        (vsmul gasParticleMass)))
    = (if cfg.frameIsCoM then vzero
       else vsmul (totalSystemMass chunks (gasCountOf cfg)) cfg.comVel) := by
  simp only [explodeCore]
  refine corrected_total chunks _ _ _ _ _ (totalSystemMass chunks (gasCountOf cfg))
    ?_ rfl ?_ rfl hm
  · simp [genList_length]
  · simp [totalSystemMass, genList_length]

theorem gasRun_from_none (deltas : List ℚ) :
    deltas.foldl (fun o d => o.bind fun g => gasUpdate g d) none = none := by
  induction deltas with
  | nil => rfl
  | cons d ds ih => simpa using ih

theorem gasUpdate_none_iff (g : GasState) (d : ℚ) (hmax : 0 < g.maxAge) :
    gasUpdate g d = none ↔ g.maxAge ≤ g.age + d := by
  unfold gasUpdate
  by_cases h : (g.age + d) / g.maxAge ≥ 1
  · simp only [h, if_true, true_iff]
    exact (one_le_div hmax).mp h
  · simp only [h, if_false]
    constructor
    · intro hc
      simp at hc
    · intro hc
      exact absurd ((one_le_div hmax).mpr hc) h

theorem gasRun_none_iff (deltas : List ℚ) :
    ∀ g : GasState, g.maxAge = 5 / 2 → g.age < 5 / 2 → (∀ d ∈ deltas, 0 ≤ d) →
      (gasRun g deltas = none ↔ 5 / 2 ≤ g.age + deltas.sum) := by
  induction deltas with
  | nil =>
      intro g hmax hage _
      simp only [gasRun, List.foldl_nil, List.sum_nil, add_zero]
      constructor
      · intro h
        simp at h
      · intro h
        exact absurd (lt_of_lt_of_le hage h) (lt_irrefl _)
  | cons d ds ih =>
      intro g hmax hage hpos
      have hd : 0 ≤ d := hpos d (List.mem_cons_self d ds)
      have hds : ∀ x ∈ ds, 0 ≤ x := fun x hx => hpos x (List.mem_cons_of_mem d hx)
      have hsum : 0 ≤ ds.sum := List.sum_nonneg hds
      have hmaxpos : 0 < g.maxAge := by rw [hmax]; norm_num
      rw [gasRun, List.foldl_cons, List.sum_cons]
      by_cases hcase : g.maxAge ≤ g.age + d
      · have hnone : gasUpdate g d = none := (gasUpdate_none_iff g d hmaxpos).mpr hcase
        rw [show (Option.bind (some g) fun g => gasUpdate g d) = gasUpdate g d from rfl,
          hnone, gasRun_from_none ds]
        rw [hmax] at hcase
        constructor
        · intro _
          linarith
        · intro _
          rfl
      · have hlt : g.age + d < 5 / 2 := by
          rw [hmax] at hcase
          exact lt_of_not_ge fun hc => hcase hc
        have hsome : gasUpdate g d = some
            { positions := (g.positions.zip g.velocities).map fun p =>
                ⟨p.1.x + p.2.x * d * 10, p.1.y + p.2.y * d * 10, p.1.z + p.2.z * d * 10⟩,
              velocities := g.velocities, age := g.age + d, maxAge := g.maxAge } := by
          unfold gasUpdate
          rw [if_neg]
          intro hge
          exact absurd ((one_le_div hmaxpos).mp hge) (by rw [hmax]; exact not_le.mpr hlt)
        rw [show (Option.bind (some g) fun g => gasUpdate g d) = gasUpdate g d from rfl,
          hsome]
        have hiff := ih
          { positions := (g.positions.zip g.velocities).map fun p =>
              ⟨p.1.x + p.2.x * d * 10, p.1.y + p.2.y * d * 10, p.1.z + p.2.z * d * 10⟩,
            velocities := g.velocities, age := g.age + d, maxAge := g.maxAge }
          hmax hlt hds
        rw [gasRun] at hiff
        rw [hiff]
        constructor
        · intro h
          linarith
        · intro h
          linarith

/-! ## Claim theorems -/

/-- C1: for every explosion trigger (any math-library model, chunk list,
configuration, system-random stream and RNG state), after the global momentum
correction the total momentum `Σ mass·velocity` over fragments plus
`Σ 0.001·velocity` over gas particles equals the target momentum — the zero
vector in the CoM frame, `comVel × totalSystemMass` in the lab frame —
exactly over exact arithmetic, whenever the total system mass is nonzero,
regardless of temperature, seed, or the individual random draws. -/
theorem C1_momentum_after_correction (M : MathModel) (chunks : List Chunk)
    (cfg : ExplosionConfig) (sysRand : ℕ → ℚ) (rngSeed sysIdx : ℕ)
    (hm : totalSystemMass chunks (gasCountOf cfg) ≠ 0) :
    vadd
      (vsum ((chunks.zip
        (explodeOutputs M chunks cfg sysRand rngSeed sysIdx).chunkVelocities).map
        fun p => vsmul p.1.mass p.2))
      (vsum ((explodeOutputs M chunks cfg sysRand rngSeed sysIdx).gasVelocities.map
        (vsmul gasParticleMass)))
    = (if cfg.frameIsCoM then vzero
       else vsmul (totalSystemMass chunks (gasCountOf cfg)) cfg.comVel) := by
  unfold explodeOutputs
  by_cases h : cfg.useRandomSeed = true
  · rw [if_pos h]
    exact explodeCore_momentum M seededRandomNext chunks cfg cfg.randomSeed hm
  · rw [if_neg h]
    exact explodeCore_momentum M (fun i => (sysRand i, i + 1)) chunks cfg sysIdx hm

/-- Witness for C1 at a concrete one-chunk, gas-disabled, CoM-frame
configuration. -/
theorem C1_momentum_after_correction_witness :
    totalSystemMass [({ initialPos := vzero, mass := 1 } : Chunk)]
        (gasCountOf ⟨true, 12345, 10, false, true, vzero⟩) ≠ 0 ∧
    vadd
      (vsum (([({ initialPos := vzero, mass := 1 } : Chunk)].zip
        (explodeOutputs mathModelZero [{ initialPos := vzero, mass := 1 }]
          ⟨true, 12345, 10, false, true, vzero⟩ (fun _ => 0) 0 0).chunkVelocities).map
        fun p => vsmul p.1.mass p.2))
      (vsum ((explodeOutputs mathModelZero [{ initialPos := vzero, mass := 1 }]
          ⟨true, 12345, 10, false, true, vzero⟩ (fun _ => 0) 0 0).gasVelocities.map
        (vsmul gasParticleMass)))
    = (if (⟨true, 12345, 10, false, true, vzero⟩ : ExplosionConfig).frameIsCoM then vzero
       else vsmul (totalSystemMass [({ initialPos := vzero, mass := 1 } : Chunk)]
         (gasCountOf ⟨true, 12345, 10, false, true, vzero⟩))
         (⟨true, 12345, 10, false, true, vzero⟩ : ExplosionConfig).comVel) :=
  ⟨by norm_num [totalSystemMass, gasCountOf, gasParticleMass],
    C1_momentum_after_correction mathModelZero _ _ _ 0 0
      (by norm_num [totalSystemMass, gasCountOf, gasParticleMass])⟩

/-- C2: in seeded mode two explosion triggers with identical configuration
produce bit-identical fragment velocity lists and gas velocity, position and
color arrays, regardless of the incoming RNG state or the system random
stream, because the trigger first resets the RNG to the configured seed and
takes all draws sequentially from that single RNG. -/
theorem C2_seeded_determinism (M : MathModel) (chunks : List Chunk)
    (cfg : ExplosionConfig) (sysRand1 sysRand2 : ℕ → ℚ)
    (rngSeed1 sysIdx1 rngSeed2 sysIdx2 : ℕ) (h : cfg.useRandomSeed = true) :
    explodeOutputs M chunks cfg sysRand1 rngSeed1 sysIdx1
      = explodeOutputs M chunks cfg sysRand2 rngSeed2 sysIdx2 := by
  simp [explodeOutputs, h]

/-- Witness for C2 at a concrete seeded configuration and two different
incoming RNG/stream states. -/
theorem C2_seeded_determinism_witness :
    explodeOutputs mathModelZero [] ⟨true, 12345, 10, true, true, vzero⟩
        (fun _ => 0) 5 0
      = explodeOutputs mathModelZero [] ⟨true, 12345, 10, true, true, vzero⟩
          (fun i => (i : ℚ)) 99 7 :=
  C2_seeded_determinism mathModelZero [] _ _ _ 5 0 99 7 rfl

/-- C3: for every unsigned 32-bit seed, the LCG update keeps all intermediates
below `2^53` (so the JS double arithmetic is exact integer arithmetic and the
sequence is bit-reproducible), the new seed is
`(seed * 1664525 + 1013904223) mod 2^32` and stays below `2^32`, the returned
value `seed / 2^32` lies in `[0, 1)`, and `reset(seed)` restores exactly the
output sequence of a generator constructed with that seed. -/
theorem C3_seeded_random_contract (seed : ℕ) (h : seed < 4294967296) :
    lcgPreMod seed < 9007199254740992 ∧
    lcgNext seed < 4294967296 ∧
    (seededRandomNext seed).2 = (seed * 1664525 + 1013904223) % 4294967296 ∧
    0 ≤ (seededRandomNext seed).1 ∧ (seededRandomNext seed).1 < 1 ∧
    ∀ (r : SeededRandom) (s : ℕ),
      (r.reset s).stream = SeededRandom.stream ⟨s⟩ := by
  have h1 : seed ≤ 4294967295 := by omega
  have hmul : seed * 1664525 ≤ 4294967295 * 1664525 :=
    Nat.mul_le_mul_right 1664525 h1
  have hnext : lcgNext seed < 4294967296 := Nat.mod_lt _ (by norm_num)
  refine ⟨?_, hnext, rfl, ?_, ?_, ?_⟩
  · show seed * 1664525 + 1013904223 < 9007199254740992
    omega
  · exact div_nonneg (Nat.cast_nonneg _) (by norm_num)
  · show (lcgNext seed : ℚ) / 4294967296 < 1
    rw [div_lt_one (by norm_num)]
    exact_mod_cast hnext
  · intro r s
    rfl

/-- Witness for C3 at the default seed 12345. -/
theorem C3_seeded_random_contract_witness :
    lcgPreMod 12345 < 9007199254740992 ∧
    lcgNext 12345 < 4294967296 ∧
    0 ≤ (seededRandomNext 12345).1 ∧ (seededRandomNext 12345).1 < 1 :=
  ⟨(C3_seeded_random_contract 12345 (by norm_num)).1,
    (C3_seeded_random_contract 12345 (by norm_num)).2.1,
    (C3_seeded_random_contract 12345 (by norm_num)).2.2.2.1,
    (C3_seeded_random_contract 12345 (by norm_num)).2.2.2.2.1⟩

/-- C4 (code divergence): `createShapeChunks` has no default case, so for an
unsupported shape kind it silently returns the empty fragment list instead of
signalling an `UnsupportedShape` error — evaluated here at the unsupported
kind "pyramid", for every math-library model. -/
theorem C4_unsupported_shape_returns_empty (M : MathModel) :
    createShapeChunks M "pyramid" = [] := rfl

/-- C5 (code divergence): with an unsupported shape (empty chunk list) and
gas disabled, the trigger is not rejected — `explodeObject` passes its only
guard and runs the momentum-correction pipeline even though
`totalSystemMass` is zero, so the division by the total system mass is
executed with a zero divisor (NaN velocities in JS). -/
theorem C5_zero_mass_division_not_rejected :
    explodeObject mathModelZero (createShapeChunks mathModelZero "pyramid")
        ⟨true, 12345, 10, false, true, vzero⟩ (fun _ => 0) true false 0 0
      = some (explodeOutputs mathModelZero (createShapeChunks mathModelZero "pyramid")
          ⟨true, 12345, 10, false, true, vzero⟩ (fun _ => 0) 0 0) ∧
    totalSystemMass (createShapeChunks mathModelZero "pyramid")
        (gasCountOf ⟨true, 12345, 10, false, true, vzero⟩) = 0 := by
  constructor
  · rfl
  · show totalSystemMass [] 0 = 0
    simp [totalSystemMass]

/-- C6 counterexample: a NaN raw frame delta is not sanitized —
`Math.max(0, NaN)` is NaN and multiplication propagates it, so
`computeSimulationDelta(NaN, 1, true)` returns NaN, contradicting the claim
that the time functions never propagate NaN. -/
theorem C6_nan_raw_delta_propagates :
    computeSimulationDelta JSNum.nan (JSNum.num 1) true = JSNum.nan := rfl

/-- C6 (amended): the NaN guard applies to the time scale only.
`clampTimeScale` sanitizes a NaN or negative time scale to 0 and always
returns a non-negative number; `computeSimulationDelta` returns a
non-negative non-NaN number whenever the raw frame delta is not NaN; a NaN
raw frame delta, however, propagates NaN whenever the clock is playing. -/
theorem C6_time_sanitization_amended (rawDelta timeScale : JSNum)
    (isPlaying : Bool) (hraw : rawDelta ≠ JSNum.nan) :
    (∃ q : ℚ, clampTimeScale timeScale = JSNum.num q ∧ 0 ≤ q) ∧
    (∃ q : ℚ, computeSimulationDelta rawDelta timeScale isPlaying = JSNum.num q ∧ 0 ≤ q) ∧
    (∀ ts : JSNum, computeSimulationDelta JSNum.nan ts true = JSNum.nan) := by
  obtain ⟨r, rfl⟩ : ∃ r, rawDelta = JSNum.num r := by
    cases rawDelta with
    | nan => exact absurd rfl hraw
    | num q => exact ⟨q, rfl⟩
  refine ⟨?_, ?_, fun _ => rfl⟩
  · cases timeScale with
    | nan => exact ⟨0, rfl, le_refl 0⟩
    | num t => exact ⟨max 0 t, rfl, le_max_left 0 t⟩
  · cases isPlaying with
    | false => exact ⟨0, rfl, le_refl 0⟩
    | true =>
        cases timeScale with
        | nan => exact ⟨max 0 r * 0, rfl, by simp⟩
        | num t =>
            exact ⟨max 0 r * max 0 t, rfl,
              mul_nonneg (le_max_left 0 r) (le_max_left 0 t)⟩

/-- Witness for the amended C6 at a concrete non-NaN raw delta and NaN time
scale. -/
theorem C6_time_sanitization_amended_witness :
    (∃ q : ℚ, clampTimeScale JSNum.nan = JSNum.num q ∧ 0 ≤ q) ∧
    (∃ q : ℚ, computeSimulationDelta (JSNum.num (2 / 100)) JSNum.nan true
      = JSNum.num q ∧ 0 ≤ q) ∧
    (∀ ts : JSNum, computeSimulationDelta JSNum.nan ts true = JSNum.nan) :=
  C6_time_sanitization_amended (JSNum.num (2 / 100)) JSNum.nan true (by simp)

/-- C7: the three time functions satisfy their stated contract:
`clampTimeScale` returns 0 for NaN and `max(0, x)` otherwise;
`computeSimulationDelta` returns 0 when not playing and
`max(0, rawDelta) * clampTimeScale(timeScale)` otherwise (so
`computeSimulationDelta(0.02, −1, true) = 0` and
`computeSimulationDelta(0.016, 0.5, true) = 0.008`); `resolveTimeStep`
returns the simulation delta when playing and `max(0, rawDelta)` otherwise. -/
theorem C7_time_function_contracts :
    (∀ ts : JSNum, clampTimeScale ts = JSNum.num (specClampTimeScale ts)) ∧
    (∀ (raw : ℚ) (ts : JSNum) (p : Bool),
      computeSimulationDelta (JSNum.num raw) ts p
        = JSNum.num (specComputeSimulationDelta raw ts p)) ∧
    (∀ (p : Bool) (sd raw : ℚ),
      resolveTimeStep p (JSNum.num sd) (JSNum.num raw)
        = JSNum.num (specResolveTimeStep p sd raw)) ∧
    computeSimulationDelta (JSNum.num (2 / 100)) (JSNum.num (-1)) true
      = JSNum.num 0 ∧
    computeSimulationDelta (JSNum.num (16 / 1000)) (JSNum.num (5 / 10)) true
      = JSNum.num (8 / 1000) := by
  refine ⟨?_, ?_, ?_, ?_, ?_⟩
  · intro ts
    cases ts <;> rfl
  · intro raw ts p
    cases p <;> cases ts <;> rfl
  · intro p sd raw
    cases p <;> rfl
  · show JSNum.num (max 0 (2 / 100) * max 0 (-1 : ℚ)) = JSNum.num 0
    norm_num
  · show JSNum.num (max 0 (16 / 1000) * max 0 (5 / 10 : ℚ)) = JSNum.num (8 / 1000)
    norm_num

/-- C8: each supported shape kind decomposes into exactly its tabulated fixed
number of fragments — 216 for cube, 72 for sphere, 60 for cone, 80 for
cylinder, 96 for ring — hence always at least 60 pieces, for every
math-library model. -/
theorem C8_fixed_fragment_counts (M : MathModel) :
    ((createShapeChunks M "cube").length = 216 ∧
      (createShapeChunks M "sphere").length = 72 ∧
      (createShapeChunks M "cone").length = 60 ∧
      (createShapeChunks M "cylinder").length = 80 ∧
      (createShapeChunks M "ring").length = 96) ∧
    (60 ≤ (createShapeChunks M "cube").length ∧
      60 ≤ (createShapeChunks M "sphere").length ∧
      60 ≤ (createShapeChunks M "cone").length ∧
      60 ≤ (createShapeChunks M "cylinder").length ∧
      60 ≤ (createShapeChunks M "ring").length) := by
  have h1 : createShapeChunks M "cube" = cubeChunks := rfl
  have h2 : createShapeChunks M "sphere" = sphereChunks M := rfl
  have h3 : createShapeChunks M "cone" = coneChunks M := rfl
  have h4 : createShapeChunks M "cylinder" = cylinderChunks M := rfl
  have h5 : createShapeChunks M "ring" = ringChunks M := rfl
  rw [h1, h2, h3, h4, h5, cubeChunks_length, sphereChunks_length M,
    coneChunks_length M, cylinderChunks_length M, ringChunks_length M]
  norm_num

/-- C9: one integrator step on a live gas buffer with `maxAge = 2.5` advances
each position by `velocity * simulationDelta * 10` and the age by
`simulationDelta`; the written opacity is `max(0, 1 − age/maxAge)` and the
written size is `0.45·(1 + 2·age/maxAge)`; the buffer is destroyed exactly
when the written opacity has reached 0, i.e. exactly when the cumulative sum
of (non-negative) stepped simulation deltas reaches or exceeds 2.5. -/
theorem C9_gas_integrator_contract :
    (∀ (g : GasState) (d : ℚ), g.maxAge = 5 / 2 → g.age + d < 5 / 2 →
      gasUpdate g d = some
        { positions := (g.positions.zip g.velocities).map fun p =>
            ⟨p.1.x + p.2.x * d * 10, p.1.y + p.2.y * d * 10, p.1.z + p.2.z * d * 10⟩,
          velocities := g.velocities, age := g.age + d, maxAge := g.maxAge }) ∧
    (∀ age maxAge : ℚ, gasOpacity age maxAge = max 0 (1 - age / maxAge) ∧
      gasSize age maxAge = 45 / 100 * (1 + 2 * (age / maxAge))) ∧
    (∀ (g : GasState) (d : ℚ), 0 < g.maxAge →
      (gasUpdate g d = none ↔ gasOpacity (g.age + d) g.maxAge = 0)) ∧
    (∀ (positions velocities : List Vec3) (deltas : List ℚ),
      (∀ d ∈ deltas, 0 ≤ d) →
      (gasRun (freshGas positions velocities) deltas = none ↔
        5 / 2 ≤ deltas.sum)) := by
  refine ⟨?_, ?_, ?_, ?_⟩
  · intro g d hmax hlt
    unfold gasUpdate
    rw [if_neg]
    intro hge
    rw [hmax] at hge
    exact absurd ((one_le_div (by norm_num : (0 : ℚ) < 5 / 2)).mp hge)
      (not_le.mpr hlt)
  · intro age maxAge
    constructor
    · unfold gasOpacity
      rw [one_mul]
    · unfold gasSize
      ring
  · intro g d hpos
    rw [gasUpdate_none_iff g d hpos]
    unfold gasOpacity
    rw [one_mul, max_eq_left_iff, sub_nonpos, one_le_div hpos]
  · intro positions velocities deltas h
    have h0 := gasRun_none_iff deltas (freshGas positions velocities) rfl
      (by norm_num [freshGas]) h
    simpa [freshGas] using h0

/-- Witness for C9: a fresh (empty) buffer stepped by a single delta of 3
seconds is destroyed, since 3 ≥ 2.5. -/
theorem C9_gas_integrator_contract_witness :
    gasRun (freshGas [] []) [3] = none :=
  (C9_gas_integrator_contract.2.2.2 [] [] [3]
      (by norm_num)).mpr (by norm_num)

/-- C10: the gas spawn-chunk index `⌊u · N⌋` from a uniform `u ∈ [0, 1)` over
a non-empty fragment list of length `N` always satisfies `0 ≤ index ≤ N − 1`;
the seeded RNG in fact only emits `u ≤ 1 − 2⁻³²`, and with any product value
`v` perturbed by at most the double-precision relative rounding bound
`N · 2⁻⁵³` the floor still lies in `[0, N − 1]`, so the gas-spawn lookup of a
fragment's initial position never indexes out of bounds. -/
theorem C10_gas_spawn_index_bounds :
    (∀ (u : ℚ) (n : ℕ), 0 ≤ u → u < 1 → 1 ≤ n →
      0 ≤ gasSpawnIdx u n ∧ gasSpawnIdx u n ≤ (n : ℤ) - 1) ∧
    (∀ s : ℕ, 0 ≤ (seededRandomNext s).1 ∧
      (seededRandomNext s).1 ≤ 1 - 1 / 4294967296) ∧
    (∀ (u v : ℚ) (n : ℕ), 0 ≤ u → u ≤ 1 - 1 / 4294967296 → 1 ≤ n → 0 ≤ v →
      |v - u * (n : ℚ)| ≤ (n : ℚ) / 9007199254740992 →
      0 ≤ (⌊v⌋ : ℤ) ∧ (⌊v⌋ : ℤ) ≤ (n : ℤ) - 1) := by
  refine ⟨?_, ?_, ?_⟩
  · intro u n hu hu1 hn
    have hnpos : (0 : ℚ) < n := by
      have : (1 : ℚ) ≤ n := by exact_mod_cast hn
      linarith
    constructor
    · exact Int.floor_nonneg.mpr (mul_nonneg hu (le_of_lt hnpos))
    · have hlt : u * (n : ℚ) < (n : ℚ) := by nlinarith
      have h2 : gasSpawnIdx u n < (n : ℤ) := by
        unfold gasSpawnIdx
        apply Int.floor_lt.mpr
        push_cast
        exact hlt
      omega
  · intro s
    constructor
    · exact div_nonneg (Nat.cast_nonneg _) (by norm_num)
    · have h1 : lcgNext s < 4294967296 := Nat.mod_lt _ (by norm_num)
      have h2 : (lcgNext s : ℚ) ≤ 4294967295 := by
        have := Nat.lt_succ_iff.mp h1
        exact_mod_cast this
      show (lcgNext s : ℚ) / 4294967296 ≤ 1 - 1 / 4294967296
      rw [div_le_iff (by norm_num : (0 : ℚ) < 4294967296)]
      linarith
  · intro u v n hu hub hn hv herr
    have hn1 : (1 : ℚ) ≤ (n : ℚ) := by exact_mod_cast hn
    have habs := abs_le.mp herr
    have hub2 : u * (n : ℚ) ≤ (1 - 1 / 4294967296) * (n : ℚ) :=
      mul_le_mul_of_nonneg_right hub (by linarith)
    constructor
    · exact Int.floor_nonneg.mpr hv
    · have hvn : v < (n : ℚ) := by
        have hv2 : v - u * (n : ℚ) ≤ (n : ℚ) / 9007199254740992 := habs.2
        nlinarith
      have h2 : (⌊v⌋ : ℤ) < (n : ℤ) := by
        apply Int.floor_lt.mpr
        push_cast
        exact hvn
      omega

/-- Witness for C10 at `u = 1/2`, `N = 72`. -/
theorem C10_gas_spawn_index_bounds_witness :
    0 ≤ gasSpawnIdx (1 / 2) 72 ∧ gasSpawnIdx (1 / 2) 72 ≤ (72 : ℤ) - 1 :=
  C10_gas_spawn_index_bounds.1 (1 / 2) 72 (by norm_num) (by norm_num) (by norm_num)

end SpaceExplosions
